import Mathlib

/-
  Verification of the adaptive code-execution pipeline of the
  agent-discovery system (orchestrator, executors, result processor,
  result cache, performance profiler, recommendation engines).

  The Python modules are shallowly embedded:
  * Python floats become rationals;
  * Python strings become Lean strings, with lowering and substring
    search defined over their character lists;
  * wall-clock timestamps (datetime.now) become explicit rational
    clock parameters threaded through the cache operations;
  * the MD5 content hash becomes an abstract hashing function passed
    as a parameter (nothing proved here depends on its definition);
  * side-channel bookkeeping that no claim observes (log lines,
    hit/miss statistic counters, human-readable summary strings) is
    not modelled, since it does not feed back into any computed value.
-/

namespace AgentDiscovery

/-! ### String helpers mirroring Python primitives -/

/-- Python str.lower over the character list (ASCII lowering, which is
what every classifier keyword exercises). -/
def pyLower (s : String) : List Char :=
  s.data.map Char.toLower

/-- Python substring containment: the needle occurs contiguously in the
haystack. -/
def charsContain (hay needle : List Char) : Bool :=
  hay.tails.any (fun t => needle.isPrefixOf t)

/-! ### Execution modes and raw executor results

Mirrors orchestrator.py (ExecutionMode), real_executor.py
(ExecutionResult) and mock_executor.py (MockExecutionResult). -/

/-- orchestrator.py ExecutionMode. -/
inductive ExecutionMode where
  | mockOnly
  | realOnly
  | both
deriving DecidableEq, Repr

/-- real_executor.py ExecutionResult.  The output_size computed by its
post-init hook is exposed as a function below. -/
structure ExecutionResult where
  success : Bool
  exitCode : ℤ
  stdout : String
  stderr : String
  executionTimeMs : ℚ
  errorCategory : Option String := none
deriving DecidableEq, Repr

/-- ExecutionResult.__post_init__: output_size = len(stdout) + len(stderr). -/
def ExecutionResult.outputSize (r : ExecutionResult) : ℕ :=
  r.stdout.length + r.stderr.length

/-- mock_executor.py MockExecutionResult (the simulation-type tag is not
consumed by any verified component and is omitted). -/
structure MockExecutionResult where
  success : Bool
  stdout : String
  stderr : String
  executionTimeMs : ℚ
  exitCode : ℤ
  errorCategory : Option String := none
deriving DecidableEq, Repr

/-- The tagged union of the two raw-result shapes, as dispatched on by
isinstance checks in orchestrator.py and result_processor.py. -/
inductive PrimaryResult where
  | real (r : ExecutionResult)
  | mock (r : MockExecutionResult)
deriving DecidableEq, Repr

/-- Exit code of whichever raw result is primary. -/
def PrimaryResult.exitCode : PrimaryResult → ℤ
  | .real r => r.exitCode
  | .mock r => r.exitCode

/-- Stdout of whichever raw result is primary. -/
def PrimaryResult.stdout : PrimaryResult → String
  | .real r => r.stdout
  | .mock r => r.stdout

/-- Stderr of whichever raw result is primary. -/
def PrimaryResult.stderr : PrimaryResult → String
  | .real r => r.stderr
  | .mock r => r.stderr

/-- OrchestratedResult.is_real_result. -/
def PrimaryResult.isReal : PrimaryResult → Bool
  | .real _ => true
  | .mock _ => false

/-- orchestrator.py OrchestratedResult, restricted to the fields the
result processor reads (the optional secondary result only feeds the
summary string and agreement statistic, which no claim observes). -/
structure OrchestratedResult where
  success : Bool
  primaryResult : PrimaryResult
  executionMode : ExecutionMode := .realOnly
  confidenceScore : ℚ := 1/2
deriving DecidableEq, Repr

/-! ### Execution orchestrator routing

Mirrors ExecutionOrchestrator.execute (the clamp) and
ExecutionOrchestrator._make_routing_decision (the threshold logic). -/

/-- Default high_confidence_threshold of ExecutionOrchestrator. -/
def highConfidenceThresholdDefault : ℚ := 8/10

/-- Default low_confidence_threshold of ExecutionOrchestrator. -/
def lowConfidenceThresholdDefault : ℚ := 5/10

/-- The clamp at the top of ExecutionOrchestrator.execute:
confidence = max(0.0, min(1.0, confidence)). -/
def clampConfidence (c : ℚ) : ℚ :=
  max 0 (min 1 c)

/-- Mode selection of _make_routing_decision. -/
def makeRoutingMode (high low c : ℚ) : ExecutionMode :=
  if c > high then .realOnly
  else if c < low then .mockOnly
  else .both

/-- Routing as performed by execute: clamp, then decide. -/
def routeMode (high low c : ℚ) : ExecutionMode :=
  makeRoutingMode high low (clampConfidence c)

/-! ### Result processor

Mirrors result_processor.py: ResultCategory, ErrorType, the keyword
tables, _classify_error, _extract_metadata, _categorize_result,
_is_cacheable, _extract_output, and process. -/

/-- result_processor.py ResultCategory. -/
inductive ResultCategory where
  | success
  | partialSuccess
  | failure
  | timeout
  | error
deriving DecidableEq, Repr

/-- result_processor.py ErrorType. -/
inductive ErrType where
  | timeout
  | permission
  | dependency
  | syntaxError
  | runtime
  | memory
  | ioError
  | unknown
deriving DecidableEq, Repr

/-- ResultProcessor.timeout_keywords. -/
def timeoutKeywords : List String :=
  ["timeout", "timed out", "deadline exceeded", "killed"]

/-- ResultProcessor.permission_keywords. -/
def permissionKeywords : List String :=
  ["permission denied", "access denied", "unauthorized"]

/-- ResultProcessor.dependency_keywords. -/
def dependencyKeywords : List String :=
  ["importerror", "modulenotfounderror", "no module", "cannot import"]

/-- ResultProcessor.syntax_keywords. -/
def syntaxKeywords : List String :=
  ["syntaxerror", "invalid syntax", "unexpected"]

/-- ResultProcessor.memory_keywords. -/
def memoryKeywords : List String :=
  ["memoryerror", "out of memory", "heap space"]

/-- Does any keyword of the table occur in the (already lowered)
output? -/
def anyKeyword (o : List Char) (table : List String) : Bool :=
  table.any (fun k => charsContain o k.data)

/-- ResultProcessor._classify_error. -/
def classifyError (output : String) (exitCode : ℤ) : Option ErrType :=
  if exitCode = 0 then none
  else
    let o := pyLower output
    if anyKeyword o timeoutKeywords then some .timeout
    else if anyKeyword o permissionKeywords then some .permission
    else if anyKeyword o dependencyKeywords then some .dependency
    else if anyKeyword o syntaxKeywords then some .syntaxError
    else if anyKeyword o memoryKeywords then some .memory
    else if (charsContain o ("io").data || charsContain o ("file").data)
             && charsContain o ("error").data then some .ioError
    else some .runtime

/-- The text _extract_metadata feeds into _classify_error: stderr for a
real result; for a mock result stderr when non-empty, else stdout. -/
def PrimaryResult.errorInput : PrimaryResult → String
  | .real r => r.stderr
  | .mock r => if r.stderr = "" then r.stdout else r.stderr

/-- result_processor.py ResultMetadata, restricted to the fields the
categorization and cacheability logic read (extra_metadata holds no
verified content). -/
structure ResultMetadata where
  executionTimeMs : ℚ
  outputSizeBytes : ℕ
  stdoutLength : ℕ
  stderrLength : ℕ
  exitCode : ℤ
  errorType : Option ErrType
  hasStderr : Bool
  isTimeout : Bool
  isRealExecution : Bool
  confidenceScore : ℚ
  executionMode : ExecutionMode
deriving DecidableEq, Repr

/-- ResultProcessor._extract_metadata. -/
def extractMetadata (result : OrchestratedResult) : ResultMetadata :=
  let primary := result.primaryResult
  let errorType := classifyError primary.errorInput primary.exitCode
  { executionTimeMs :=
      match primary with
      | .real r => r.executionTimeMs
      | .mock r => r.executionTimeMs
    outputSizeBytes :=
      match primary with
      | .real r => r.outputSize
      | .mock r => r.stdout.length + r.stderr.length
    stdoutLength := primary.stdout.length
    stderrLength := primary.stderr.length
    exitCode := primary.exitCode
    errorType := errorType
    hasStderr := primary.stderr.length > 0
    isTimeout := errorType = some ErrType.timeout
    isRealExecution := primary.isReal
    confidenceScore := result.confidenceScore
    executionMode := result.executionMode }

/-- ResultProcessor._categorize_result (its result argument is unused in
the source body, so only the metadata is taken). -/
def categorizeResult (m : ResultMetadata) : ResultCategory :=
  if m.isTimeout then .timeout
  else if m.exitCode = 0 then .success
  else if m.stdoutLength > 0 ∨ m.stderrLength > 0 then .partialSuccess
  else if m.errorType = some ErrType.syntaxError ∨ m.errorType = some ErrType.memory
          ∨ m.errorType = some ErrType.dependency then .error
  else .failure

/-- ResultProcessor._is_cacheable (its result argument is unused in the
source body, so only the category is taken). -/
def isCacheableFor (category : ResultCategory) : Bool :=
  if category = .success ∨ category = .partialSuccess then true
  else if category = .timeout ∨ category = .error then false
  else false

/-- ResultProcessor._extract_output: stdout preferred, stderr as the
fallback, identically for both raw shapes. -/
def extractOutput (result : OrchestratedResult) : String :=
  if result.primaryResult.stdout = "" then result.primaryResult.stderr
  else result.primaryResult.stdout

/-- result_processor.py EnhancedResult (the presentational summary
string is not modelled). -/
structure EnhancedResult where
  orchestratedResult : OrchestratedResult
  category : ResultCategory
  metadata : ResultMetadata
  isCacheable : Bool
  primaryOutput : String
  isSuccessful : Bool
deriving DecidableEq, Repr

/-- ResultProcessor.process, with EnhancedResult.__post_init__ setting
is_successful from the category. -/
def process (result : OrchestratedResult) : EnhancedResult :=
  let metadata := extractMetadata result
  let category := categorizeResult metadata
  { orchestratedResult := result
    category := category
    metadata := metadata
    isCacheable := isCacheableFor category
    primaryOutput := extractOutput result
    isSuccessful := category = ResultCategory.success }

/-! ### Isolated (real) executor, timeout branch

Mirrors the subprocess.TimeoutExpired handler in
RealExecutor._run_subprocess.  What the killed child had already written
to its pipes is a physical fact outside the program, so the drained
stdout/stderr and the elapsed wall-clock time enter as parameters; the
construction of the returned ExecutionResult is the code's. -/

/-- RealExecutor.MAX_OUTPUT_SIZE (10 MB). -/
def MAX_OUTPUT_SIZE : ℕ := 10 * 1024 * 1024

/-- Python slice stdout[:MAX_OUTPUT_SIZE] on a string. -/
def truncateOutput (s : String) : String :=
  ⟨s.data.take MAX_OUTPUT_SIZE⟩

/-- The ExecutionResult built by the TimeoutExpired branch of
_run_subprocess: exit code -1, error category timeout, the drained
output truncated to the cap, and no exception propagated. -/
def runSubprocessTimeoutResult (drainedStdout drainedStderr : String)
    (elapsedMs : ℚ) : ExecutionResult :=
  { success := false
    exitCode := -1
    stdout := truncateOutput drainedStdout
    stderr := truncateOutput drainedStderr
    executionTimeMs := elapsedMs
    errorCategory := some ("timeout") }

/-! ### Result cache

Mirrors result_cache.py: CacheEntry, ResultCache.get / put /
_evict_one_entry / _hash_code.  The Python dict keyed by hash is an
insertion-ordered association list with unique keys; dictionary
assignment, lookup and deletion are dictSet / dictFind? / dictDel.
datetime.now() is an explicit clock parameter, and the MD5 hash an
abstract function parameter.  The hit/miss statistics counters are not
modelled: no claim observes them and they never influence which entries
exist or what get returns. -/

/-- result_cache.py CacheEntry. -/
structure CacheEntry where
  codeHash : String
  result : EnhancedResult
  timestamp : ℚ
  ttlSeconds : ℚ
  hitCount : ℕ
  lastAccessed : ℚ
deriving DecidableEq, Repr

/-- CacheEntry.is_expired: now > timestamp + ttl_seconds. -/
def CacheEntry.isExpired (now : ℚ) (e : CacheEntry) : Bool :=
  now > e.timestamp + e.ttlSeconds

/-- The cache's internal dict, in insertion order. -/
abbrev CacheDict := List (String × CacheEntry)

/-- Python dict lookup cache.get(key). -/
def dictFind? : CacheDict → String → Option CacheEntry
  | [], _ => none
  | p :: rest, k => if p.1 = k then some p.2 else dictFind? rest k

/-- Python dict assignment cache[key] = entry: replace in place when the
key exists, append otherwise. -/
def dictSet : CacheDict → String → CacheEntry → CacheDict
  | [], k, v => [(k, v)]
  | p :: rest, k, v => if p.1 = k then (k, v) :: rest else p :: dictSet rest k v

/-- Python del cache[key]. -/
def dictDel : CacheDict → String → CacheDict
  | [], _ => []
  | p :: rest, k => if p.1 = k then rest else p :: dictDel rest k

/-- Python min(items, key=...): the first element attaining the least
key, via the standard left fold. -/
def pyMinBy (key : CacheEntry → ℚ) : CacheDict → Option (String × CacheEntry)
  | [] => none
  | x :: xs => some (xs.foldl (fun acc y => if key y.2 < key acc.2 then y else acc) x)

/-- ResultCache._evict_one_entry: lru evicts the oldest last_accessed,
lfu the lowest hit_count, any other policy the first (insertion-order)
entry. -/
def evictOneEntry (policy : String) (st : CacheDict) : CacheDict :=
  if st.isEmpty then st
  else if policy = "lru" then
    match pyMinBy (fun e => e.lastAccessed) st with
    | some ke => dictDel st ke.1
    | none => st
  else if policy = "lfu" then
    match pyMinBy (fun e => (e.hitCount : ℚ)) st with
    | some ke => dictDel st ke.1
    | none => st
  else
    match st with
    | [] => st
    | p :: _ => dictDel st p.1

/-- The TTL actually stored by put: Python ttl_seconds or
default_ttl_seconds, where a missing or zero (falsy) argument falls back
to the default. -/
def effectiveTtl (defaultTtl : ℚ) : Option ℚ → ℚ
  | none => defaultTtl
  | some t => if t = 0 then defaultTtl else t

/-- ResultCache.put: skip non-cacheable results, evict once when the
dict already holds at least max_entries entries, then insert the new
entry keyed by the content hash of the code (hit_count 0, timestamp and
last_accessed now). -/
def cachePut (hash : String → String) (policy : String) (maxEntries : ℕ)
    (defaultTtl : ℚ) (now : ℚ) (st : CacheDict) (code : String)
    (r : EnhancedResult) (ttlSeconds? : Option ℚ) : CacheDict :=
  if !r.isCacheable then st
  else
    let h := hash code
    let st1 := if maxEntries ≤ st.length then evictOneEntry policy st else st
    dictSet st1 h
      { codeHash := h
        result := r
        timestamp := now
        ttlSeconds := effectiveTtl defaultTtl ttlSeconds?
        hitCount := 0
        lastAccessed := now }

/-- ResultCache.get: miss on an absent key, lazily expire and miss on an
expired entry, otherwise record the hit (hit_count, last_accessed) and
return the stored result. -/
def cacheGet (hash : String → String) (now : ℚ) (st : CacheDict)
    (code : String) : Option EnhancedResult × CacheDict :=
  let h := hash code
  match dictFind? st h with
  | none => (none, st)
  | some e =>
    if e.isExpired now then (none, dictDel st h)
    else (some e.result,
          dictSet st h { e with hitCount := e.hitCount + 1, lastAccessed := now })

/-! ### Performance profiler

Mirrors performance_profiler.py: ExecutionProfile,
PerformanceProfiler.build_profile / predict, statistics.median and the
interpolating _percentile.  statistics.stdev is the square root of the
sample variance and is irrational in general, so build_profile receives
it as a parameter; no verified claim depends on its value. -/

/-- Python sorted(...) on rationals (a stable sort; only the resulting
order matters here). -/
def pySorted (l : List ℚ) : List ℚ :=
  l.insertionSort (· ≤ ·)

/-- Python min(...) over a non-empty list, 0 on the empty list (the
caller guards emptiness). -/
def pyMinList : List ℚ → ℚ
  | [] => 0
  | x :: xs => xs.foldl min x

/-- Python max(...) over a non-empty list, 0 on the empty list. -/
def pyMaxList : List ℚ → ℚ
  | [] => 0
  | x :: xs => xs.foldl max x

/-- statistics.mean. -/
def pyMean (l : List ℚ) : ℚ :=
  l.sum / l.length

/-- statistics.median: middle element for odd length, mean of the two
middle elements for even length. -/
def pyMedian (l : List ℚ) : ℚ :=
  let s := pySorted l
  let n := s.length
  if n % 2 = 1 then s.getD (n / 2) 0
  else (s.getD (n / 2 - 1) 0 + s.getD (n / 2) 0) / 2

/-- PerformanceProfiler._percentile: linear interpolation between the
two nearest ranks (int() truncation is floor, the index being
non-negative). -/
def percentileInterp (data : List ℚ) (p : ℚ) : ℚ :=
  if data.isEmpty then 0
  else
    let s := pySorted data
    let index : ℚ := p / 100 * ((s.length : ℚ) - 1)
    let lower : ℕ := index.floor.toNat
    let upper : ℕ := min (lower + 1) (s.length - 1)
    if lower = upper then s.getD lower 0
    else s.getD lower 0 + (s.getD upper 0 - s.getD lower 0) * (index - (lower : ℚ))

/-- performance_profiler.py ExecutionProfile (complexity level and
timestamp metadata carry no verified content). -/
structure ExecutionProfile where
  minMs : ℚ
  maxMs : ℚ
  avgMs : ℚ
  p50Ms : ℚ
  p95Ms : ℚ
  p99Ms : ℚ
  sampleCount : ℕ
  stdDevMs : ℚ
deriving DecidableEq, Repr

/-- ExecutionProfile.is_valid: at least 3 samples. -/
def ExecutionProfile.isValid (p : ExecutionProfile) : Bool :=
  3 ≤ p.sampleCount

/-- ExecutionProfile.get_estimated_time. -/
def ExecutionProfile.getEstimatedTime (p : ExecutionProfile) (percentile : ℕ) : ℚ :=
  if percentile = 50 then p.p50Ms
  else if percentile = 99 then p.p99Ms
  else p.p95Ms

/-- PerformanceProfiler.build_profile, with min_samples_for_profile = 3
and the stdev passed in (see the section comment). -/
def buildProfile (timings : List ℚ) (stdDev : ℚ) : Option ExecutionProfile :=
  if timings.length < 3 then none
  else some
    { minMs := pyMinList timings
      maxMs := pyMaxList timings
      avgMs := pyMean timings
      p50Ms := pyMedian timings
      p95Ms := percentileInterp timings 95
      p99Ms := percentileInterp timings 99
      sampleCount := timings.length
      stdDevMs := stdDev }

/-- performance_profiler.py PerformancePrediction, restricted to the
computed numeric fields (reason and metadata are presentational). -/
structure PerformancePrediction where
  predictedTimeMs : ℚ
  confidence : ℚ
  percentileUsed : ℕ
  minTimeMs : ℚ := 0
  maxTimeMs : ℚ := 0
deriving DecidableEq, Repr

/-- The no-profile branch of PerformanceProfiler.predict: fixed 1000 ms
estimate with confidence 0.1. -/
def fallbackPrediction (percentile : ℕ) : PerformancePrediction :=
  { predictedTimeMs := 1000, confidence := 1/10, percentileUsed := percentile }

/-- The valid-profile branch of PerformanceProfiler.predict: the
percentile estimate with confidence the equal-weight mean of the
sample-size factor and the variability factor. -/
def predictValid (p : ExecutionProfile) (percentile : ℕ) : PerformancePrediction :=
  let sampleConfidence : ℚ := min 1 ((p.sampleCount : ℚ) / 100)
  let variability : ℚ := if p.avgMs > 0 then p.stdDevMs / p.avgMs else 0
  let variabilityConfidence : ℚ := 1 / (1 + variability)
  { predictedTimeMs := p.getEstimatedTime percentile
    confidence := (sampleConfidence + variabilityConfidence) / 2
    percentileUsed := percentile
    minTimeMs := p.p50Ms
    maxTimeMs := p.p99Ms }

/-- PerformanceProfiler.predict for one complexity level: the level's
profile dict entry enters as an Option; a missing or invalid profile
takes the fallback branch. -/
def predict : Option ExecutionProfile → ℕ → PerformancePrediction
  | none, percentile => fallbackPrediction percentile
  | some p, percentile =>
    if !p.isValid then fallbackPrediction percentile
    else predictValid p percentile

/-! ### Recommendation structures

Mirrors recommendation_engine.py CodeRecommendation (whose post-init
hook range-validates and raises ValueError) and optimization_engine.py
OptimizationRecommendation (a plain dataclass with no validation
whatsoever). -/

/-- recommendation_engine.py RecommendationType. -/
inductive RecommendationType where
  | cache
  | split
  | profile
  | optimize
  | retry
  | reduce
deriving DecidableEq, Repr

/-- recommendation_engine.py CodeRecommendation fields (target code,
effort and metadata carry no validated content). -/
structure CodeRecommendation where
  recommendationType : RecommendationType
  description : String
  expectedSavingsMs : ℚ
  confidence : ℚ
  priority : ℤ
deriving DecidableEq, Repr

/-- CodeRecommendation construction: dataclass __init__ followed by
__post_init__, whose ValueError paths become Except.error. -/
def mkCodeRecommendation (rType : RecommendationType) (description : String)
    (expectedSavingsMs confidence : ℚ) (priority : ℤ) :
    Except String CodeRecommendation :=
  if ¬(0 ≤ confidence ∧ confidence ≤ 1) then
    .error ("Confidence must be 0.0-1.0")
  else if ¬(1 ≤ priority ∧ priority ≤ 5) then
    .error ("Priority must be 1-5")
  else if expectedSavingsMs < 0 then
    .error ("Expected savings cannot be negative")
  else
    .ok { recommendationType := rType
          description := description
          expectedSavingsMs := expectedSavingsMs
          confidence := confidence
          priority := priority }

/-- optimization_engine.py OptimizationStrategy. -/
inductive OptimizationStrategy where
  | cacheAggressive
  | cacheConservative
  | routingRealOnly
  | routingBoth
  | splitExecution
  | profileHeavy
  | retryAggressive
deriving DecidableEq, Repr

/-- optimization_engine.py OptimizationRecommendation fields. -/
structure OptimizationRecommendation where
  strategy : OptimizationStrategy
  description : String
  expectedBenefit : String
  confidence : ℚ
  reason : String
  priority : ℤ := 5
deriving DecidableEq, Repr

/-- OptimizationRecommendation construction: the generated dataclass
__init__ alone — the class defines no __post_init__, so every argument
is stored unchecked. -/
def mkOptimizationRecommendation (strategy : OptimizationStrategy)
    (description expectedBenefit : String) (confidence : ℚ) (reason : String)
    (priority : ℤ) : OptimizationRecommendation :=
  { strategy := strategy
    description := description
    expectedBenefit := expectedBenefit
    confidence := confidence
    reason := reason
    priority := priority }

/-! ### Helper lemmas about the embedded definitions -/

lemma process_category (result : OrchestratedResult) :
    (process result).category = categorizeResult (extractMetadata result) := rfl

lemma process_isCacheable (result : OrchestratedResult) :
    (process result).isCacheable = isCacheableFor ((process result).category) := rfl

lemma extractMetadata_exitCode (result : OrchestratedResult) :
    (extractMetadata result).exitCode = result.primaryResult.exitCode := rfl

lemma extractMetadata_errorType (result : OrchestratedResult) :
    (extractMetadata result).errorType =
      classifyError result.primaryResult.errorInput result.primaryResult.exitCode := rfl

lemma extractMetadata_isTimeout (result : OrchestratedResult) :
    (extractMetadata result).isTimeout =
      decide (classifyError result.primaryResult.errorInput result.primaryResult.exitCode
        = some ErrType.timeout) := rfl

lemma extractMetadata_stdoutLength (result : OrchestratedResult) :
    (extractMetadata result).stdoutLength = result.primaryResult.stdout.length := rfl

lemma extractMetadata_stderrLength (result : OrchestratedResult) :
    (extractMetadata result).stderrLength = result.primaryResult.stderr.length := rfl

lemma string_length_zero_eq (s : String) (h : s.length = 0) : s = "" := by
  cases s with
  | mk data =>
    cases data with
    | nil => rfl
    | cons a l => simp [String.length] at h

lemma string_ne_empty_length_pos (s : String) (h : s ≠ "") : 0 < s.length := by
  cases s with
  | mk data =>
    cases data with
    | nil => exact absurd rfl h
    | cons a l => simp [String.length]

lemma errorInput_of_empty (p : PrimaryResult) (h1 : p.stdout = "") (h2 : p.stderr = "") :
    p.errorInput = "" := by
  cases p with
  | real r =>
    simp only [PrimaryResult.stderr] at h2
    simp [PrimaryResult.errorInput, h2]
  | mock r =>
    simp only [PrimaryResult.stdout] at h1
    simp only [PrimaryResult.stderr] at h2
    simp [PrimaryResult.errorInput, h1, h2]

lemma classifyError_empty (e : ℤ) (he : e ≠ 0) :
    classifyError "" e = some ErrType.runtime := by
  unfold classifyError
  rw [if_neg he]
  decide

lemma classifyError_ne_timeout (output : String) (e : ℤ)
    (hkw : anyKeyword (pyLower output) timeoutKeywords = false) :
    classifyError output e ≠ some ErrType.timeout := by
  simp only [classifyError]
  split_ifs <;> simp_all

/-! ### Claim theorems -/

/-- C1: the orchestrator clamps the confidence to [0,1] and then routes
with the default thresholds: any confidence at most 0 routes to
mock-only, any confidence at least 1 routes to real-only, route(-5)
equals route(0), and any confidence in the closed interval between the
low and the high threshold routes to both. -/
theorem confidence_routing_clamped (c : ℚ) :
    (c ≤ 0 →
      routeMode highConfidenceThresholdDefault lowConfidenceThresholdDefault c
        = ExecutionMode.mockOnly) ∧
    (1 ≤ c →
      routeMode highConfidenceThresholdDefault lowConfidenceThresholdDefault c
        = ExecutionMode.realOnly) ∧
    routeMode highConfidenceThresholdDefault lowConfidenceThresholdDefault (-5)
      = routeMode highConfidenceThresholdDefault lowConfidenceThresholdDefault 0 ∧
    (lowConfidenceThresholdDefault ≤ c → c ≤ highConfidenceThresholdDefault →
      routeMode highConfidenceThresholdDefault lowConfidenceThresholdDefault c
        = ExecutionMode.both) := by
  have hclamp_nonpos : ∀ x : ℚ, x ≤ 0 → clampConfidence x = 0 := by
    intro x hx
    unfold clampConfidence
    rw [min_eq_right (le_trans hx zero_le_one), max_eq_left hx]
  refine ⟨?_, ?_, ?_, ?_⟩
  · intro h
    unfold routeMode makeRoutingMode
    rw [hclamp_nonpos c h]
    norm_num [highConfidenceThresholdDefault, lowConfidenceThresholdDefault]
  · intro h
    unfold routeMode makeRoutingMode clampConfidence
    rw [min_eq_left h, max_eq_right zero_le_one]
    norm_num [highConfidenceThresholdDefault, lowConfidenceThresholdDefault]
  · unfold routeMode
    rw [hclamp_nonpos (-5) (by norm_num), hclamp_nonpos 0 le_rfl]
  · intro hlo hhi
    rw [lowConfidenceThresholdDefault] at hlo
    rw [highConfidenceThresholdDefault] at hhi
    unfold routeMode makeRoutingMode clampConfidence
    rw [min_eq_right (by linarith), max_eq_right (by linarith)]
    rw [highConfidenceThresholdDefault, lowConfidenceThresholdDefault]
    rw [if_neg (by linarith : ¬ c > 8/10), if_neg (by linarith : ¬ c < 5/10)]

/-- Witness for C1 at confidence 0: the route is mock-only. -/
theorem confidence_routing_clamped_witness :
    routeMode highConfidenceThresholdDefault lowConfidenceThresholdDefault 0
      = ExecutionMode.mockOnly :=
  (confidence_routing_clamped 0).1 le_rfl

/-- C2: whenever the primary raw result's exit code is 0, the processor
assigns category success. -/
theorem exit_zero_implies_success (result : OrchestratedResult)
    (h : result.primaryResult.exitCode = 0) :
    (process result).category = ResultCategory.success := by
  have hclass : classifyError result.primaryResult.errorInput
      result.primaryResult.exitCode = none := by
    unfold classifyError
    rw [h]
    simp
  rw [process_category]
  unfold categorizeResult
  rw [extractMetadata_isTimeout, hclass, extractMetadata_exitCode, h]
  simp

/-- Witness for C2: a real result with exit code 0 is categorized
success. -/
theorem exit_zero_implies_success_witness :
    (process { success := true,
               primaryResult := .real { success := true, exitCode := 0, stdout := ("1"),
                                        stderr := "", executionTimeMs := 1 } }).category
      = ResultCategory.success :=
  exit_zero_implies_success _ rfl

/-- C3 counterexample: a real result with non-zero exit code and
non-empty stderr containing a timeout keyword is categorized timeout,
not partialSuccess, refuting the claim as stated. -/
theorem timeout_precedes_partial_counterexample :
    (process { success := false,
               primaryResult := .real { success := false, exitCode := 1, stdout := "",
                                        stderr := ("timed out"), executionTimeMs := 1 } }).category
        = ResultCategory.timeout ∧
    (process { success := false,
               primaryResult := .real { success := false, exitCode := 1, stdout := "",
                                        stderr := ("timed out"), executionTimeMs := 1 } }).category
        ≠ ResultCategory.partialSuccess := by
  constructor
  · decide
  · decide

/-- C3 amended: a non-zero exit code with any output yields category
partialSuccess, provided no timeout keyword occurs in the lowered error
output of the primary result (otherwise the earlier timeout check of
_categorize_result fires first). -/
theorem output_nonzero_exit_partial (result : OrchestratedResult)
    (hexit : result.primaryResult.exitCode ≠ 0)
    (hout : result.primaryResult.stdout ≠ "" ∨ result.primaryResult.stderr ≠ "")
    (hkw : anyKeyword (pyLower result.primaryResult.errorInput) timeoutKeywords = false) :
    (process result).category = ResultCategory.partialSuccess := by
  have hnt := classifyError_ne_timeout result.primaryResult.errorInput
    result.primaryResult.exitCode hkw
  rw [process_category]
  unfold categorizeResult
  rw [extractMetadata_isTimeout, extractMetadata_exitCode,
    extractMetadata_stdoutLength, extractMetadata_stderrLength]
  rw [decide_eq_false hnt]
  rw [if_neg (by simp)]
  rw [if_neg hexit]
  rw [if_pos]
  rcases hout with h | h
  · exact Or.inl (string_ne_empty_length_pos _ h)
  · exact Or.inr (string_ne_empty_length_pos _ h)

/-- Witness for the amended C3: non-zero exit with plain stderr output
and no timeout keyword yields partialSuccess. -/
theorem output_nonzero_exit_partial_witness :
    (process { success := false,
               primaryResult := .real { success := false, exitCode := 1, stdout := "",
                                        stderr := ("boom"), executionTimeMs := 1 } }).category
      = ResultCategory.partialSuccess :=
  output_nonzero_exit_partial _ (by decide) (Or.inr (by decide)) (by decide)

/-- C10: the error category is unreachable through process: the error
branch needs an output-free non-zero-exit result whose classified error
type is syntax, memory or dependency, but classifying an empty output
always yields the runtime error type. -/
theorem error_category_unreachable (result : OrchestratedResult) :
    (process result).category ≠ ResultCategory.error := by
  rw [process_category]
  intro hcontra
  unfold categorizeResult at hcontra
  rw [extractMetadata_isTimeout, extractMetadata_exitCode, extractMetadata_stdoutLength,
    extractMetadata_stderrLength, extractMetadata_errorType] at hcontra
  by_cases ht : decide (classifyError result.primaryResult.errorInput
      result.primaryResult.exitCode = some ErrType.timeout) = true
  · rw [if_pos ht] at hcontra
    exact ResultCategory.noConfusion hcontra
  · rw [if_neg ht] at hcontra
    by_cases he : result.primaryResult.exitCode = 0
    · rw [if_pos he] at hcontra
      exact ResultCategory.noConfusion hcontra
    · rw [if_neg he] at hcontra
      by_cases hout : result.primaryResult.stdout.length > 0 ∨
          result.primaryResult.stderr.length > 0
      · rw [if_pos hout] at hcontra
        exact ResultCategory.noConfusion hcontra
      · rw [if_neg hout] at hcontra
        push_neg at hout
        have hs1 : result.primaryResult.stdout = "" :=
          string_length_zero_eq _ (Nat.le_zero.mp hout.1)
        have hs2 : result.primaryResult.stderr = "" :=
          string_length_zero_eq _ (Nat.le_zero.mp hout.2)
        have hrt : classifyError result.primaryResult.errorInput
            result.primaryResult.exitCode = some ErrType.runtime := by
          rw [errorInput_of_empty _ hs1 hs2]
          exact classifyError_empty _ he
        rw [hrt] at hcontra
        split at hcontra
        · rename_i hmem
          rcases hmem with h | h | h <;> simp at h
        · exact ResultCategory.noConfusion hcontra

/-- Witness for C10 at a concrete output-free failing result. -/
theorem error_category_unreachable_witness :
    (process { success := false,
               primaryResult := .real { success := false, exitCode := 1, stdout := "",
                                        stderr := "", executionTimeMs := 1 } }).category
      ≠ ResultCategory.error :=
  error_category_unreachable _

/-- The end-to-end result of the timeout branch of the real executor for
a child that produced no output before being killed (a snippet that only
sleeps), fed through the processor. -/
def timeoutPipelineResult : EnhancedResult :=
  process { success := false,
            primaryResult := .real (runSubprocessTimeoutResult "" "" 1000),
            executionMode := .realOnly,
            confidenceScore := 9/10 }

/-- C5 evaluation: for a sleeping snippet killed on timeout (drained
output empty) the raw result does carry exit code -1 and the executor's
own timeout tag, and the processed result is not cacheable — but the
processor categorizes it failure, not timeout, because it re-classifies
from the (empty) stderr and ignores the executor's error category. -/
theorem timeout_pipeline_eval :
    (runSubprocessTimeoutResult "" "" 1000).exitCode = -1 ∧
    (runSubprocessTimeoutResult "" "" 1000).errorCategory = some ("timeout") ∧
    timeoutPipelineResult.isCacheable = false ∧
    timeoutPipelineResult.category = ResultCategory.failure ∧
    timeoutPipelineResult.category ≠ ResultCategory.timeout := by
  refine ⟨rfl, rfl, ?_, ?_, ?_⟩
  · decide
  · decide
  · decide

/-! ### Cache dictionary lemmas -/

lemma dictFind?_dictSet_self (st : CacheDict) (k : String) (v : CacheEntry) :
    dictFind? (dictSet st k v) k = some v := by
  induction st with
  | nil => simp [dictSet, dictFind?]
  | cons p rest ih =>
    by_cases hp : p.1 = k
    · simp [dictSet, hp, dictFind?]
    · simp [dictSet, hp, dictFind?, ih]

lemma dictFind?_eq_none_iff (st : CacheDict) (k : String) :
    dictFind? st k = none ↔ ∀ p ∈ st, p.1 ≠ k := by
  induction st with
  | nil => simp [dictFind?]
  | cons p rest ih =>
    by_cases hp : p.1 = k
    · simp [dictFind?, hp]
    · simp [dictFind?, hp, ih]

lemma dictDel_subset (st : CacheDict) (k : String) (p : String × CacheEntry)
    (hp : p ∈ dictDel st k) : p ∈ st := by
  induction st with
  | nil => simp [dictDel] at hp
  | cons q rest ih =>
    by_cases hq : q.1 = k
    · simp only [dictDel, if_pos hq] at hp
      exact List.mem_cons_of_mem q hp
    · simp only [dictDel, if_neg hq] at hp
      rcases List.mem_cons.mp hp with h | h
      · exact h ▸ List.mem_cons_self q rest
      · exact List.mem_cons_of_mem q (ih h)

lemma mem_dictDel_of_ne (st : CacheDict) (k : String) (p : String × CacheEntry)
    (hp : p ∈ st) (hne : p.1 ≠ k) : p ∈ dictDel st k := by
  induction st with
  | nil => simp at hp
  | cons q rest ih =>
    by_cases hq : q.1 = k
    · simp only [dictDel, if_pos hq]
      rcases List.mem_cons.mp hp with h | h
      · exact absurd (h ▸ hq) hne
      · exact h
    · simp only [dictDel, if_neg hq]
      rcases List.mem_cons.mp hp with h | h
      · exact h ▸ List.mem_cons_self q (dictDel rest k)
      · exact List.mem_cons_of_mem q (ih h)

lemma length_dictDel_add_one (st : CacheDict) (k : String)
    (h : ∃ e, (k, e) ∈ st) : (dictDel st k).length + 1 = st.length := by
  induction st with
  | nil => simp at h
  | cons q rest ih =>
    by_cases hq : q.1 = k
    · simp [dictDel, hq]
    · obtain ⟨e, he⟩ := h
      rcases List.mem_cons.mp he with hqe | hqe
      · exact absurd (by rw [← hqe]) hq
      · simp only [dictDel, if_neg hq, List.length_cons]
        rw [ih ⟨e, hqe⟩]

lemma dictSet_append_of_fresh (st : CacheDict) (k : String) (v : CacheEntry)
    (h : ∀ p ∈ st, p.1 ≠ k) : dictSet st k v = st ++ [(k, v)] := by
  induction st with
  | nil => simp [dictSet]
  | cons q rest ih =>
    have hq : q.1 ≠ k := h q (List.mem_cons_self q rest)
    simp only [dictSet, if_neg hq, List.cons_append, List.cons.injEq, true_and]
    exact ih (fun p hp => h p (List.mem_cons_of_mem q hp))

lemma nodup_keys_unique (st : CacheDict) (hnd : (st.map Prod.fst).Nodup)
    (k : String) (a b : CacheEntry) (ha : (k, a) ∈ st) (hb : (k, b) ∈ st) : a = b := by
  induction st with
  | nil => simp at ha
  | cons q rest ih =>
    rw [List.map_cons, List.nodup_cons] at hnd
    rcases List.mem_cons.mp ha with h1 | h1 <;> rcases List.mem_cons.mp hb with h2 | h2
    · exact congrArg Prod.snd (h1.trans h2.symm)
    · exact absurd (List.mem_map.mpr ⟨(k, b), h2, by rw [← h1]⟩) hnd.1
    · exact absurd (List.mem_map.mpr ⟨(k, a), h1, by rw [← h2]⟩) hnd.1
    · exact ih hnd.2 h1 h2

lemma foldlMin_mem (key : CacheEntry → ℚ) (l : CacheDict) (a : String × CacheEntry) :
    l.foldl (fun acc y => if key y.2 < key acc.2 then y else acc) a ∈ a :: l := by
  induction l generalizing a with
  | nil => simp
  | cons x xs ih =>
    simp only [List.foldl_cons]
    have h := ih (if key x.2 < key a.2 then x else a)
    have hb : (if key x.2 < key a.2 then x else a) ∈ a :: x :: xs := by
      split
      · exact List.mem_cons_of_mem a (List.mem_cons_self x xs)
      · exact List.mem_cons_self a (x :: xs)
    rcases List.mem_cons.mp h with heq | hmem
    · rw [heq]
      exact hb
    · exact List.mem_cons_of_mem a (List.mem_cons_of_mem x hmem)

lemma foldlMin_le (key : CacheEntry → ℚ) (l : CacheDict) (a : String × CacheEntry) :
    ∀ p ∈ a :: l,
      key ((l.foldl (fun acc y => if key y.2 < key acc.2 then y else acc) a)).2 ≤ key p.2 := by
  induction l generalizing a with
  | nil =>
    intro p hp
    rcases List.mem_cons.mp hp with h | h
    · subst h
      exact le_rfl
    · simp at h
  | cons x xs ih =>
    intro p hp
    simp only [List.foldl_cons]
    have hba : key (if key x.2 < key a.2 then x else a).2 ≤ key a.2 := by
      split
      · rename_i hc
        exact le_of_lt hc
      · exact le_rfl
    have hbx : key (if key x.2 < key a.2 then x else a).2 ≤ key x.2 := by
      split
      · exact le_rfl
      · rename_i hc
        exact le_of_not_lt hc
    have hres := ih (if key x.2 < key a.2 then x else a)
      (if key x.2 < key a.2 then x else a)
      (List.mem_cons_self _ xs)
    rcases List.mem_cons.mp hp with h | h
    · subst h
      exact le_trans hres hba
    · rcases List.mem_cons.mp h with h2 | h2
      · subst h2
        exact le_trans hres hbx
      · exact ih _ p (List.mem_cons_of_mem _ h2)

lemma pyMinBy_spec (key : CacheEntry → ℚ) (st : CacheDict) (hne : st ≠ []) :
    ∃ m, pyMinBy key st = some m ∧ m ∈ st ∧ ∀ p ∈ st, key m.2 ≤ key p.2 := by
  cases st with
  | nil => exact absurd rfl hne
  | cons x xs =>
    exact ⟨_, rfl, foldlMin_mem key xs x, fun p hp => foldlMin_le key xs x p hp⟩

/-- A processed successful real run, used as a concrete cacheable
result. -/
def successResultExample : EnhancedResult :=
  process { success := true,
            primaryResult := .real { success := true, exitCode := 0, stdout := ("1"),
                                     stderr := "", executionTimeMs := 1 } }

/-- A processed output-free failing real run, used as a concrete
non-cacheable result. -/
def failureResultExample : EnhancedResult :=
  process { success := false,
            primaryResult := .real { success := false, exitCode := 1, stdout := "",
                                     stderr := "", executionTimeMs := 1 } }

/-- C4: the processor marks a result cacheable exactly when its category
is success or partialSuccess, and because put skips non-cacheable
results, putting a non-cacheable result and immediately getting the same
code (with no prior entry under that code's hash) misses. -/
theorem cacheable_iff_and_put_noop :
    (∀ result : OrchestratedResult,
        (process result).isCacheable = true ↔
          ((process result).category = ResultCategory.success ∨
           (process result).category = ResultCategory.partialSuccess)) ∧
    (∀ (hash : String → String) (policy : String) (maxEntries : ℕ)
        (defaultTtl now getNow : ℚ) (st : CacheDict) (code : String)
        (r : EnhancedResult) (ttl? : Option ℚ),
        r.isCacheable = false →
        dictFind? st (hash code) = none →
        (cacheGet hash getNow
            (cachePut hash policy maxEntries defaultTtl now st code r ttl?) code).1
          = none) := by
  constructor
  · intro result
    rw [process_isCacheable]
    cases h : (process result).category <;> simp [isCacheableFor]
  · intro hash policy maxEntries defaultTtl now getNow st code r ttl? hnc hfresh
    have hput : cachePut hash policy maxEntries defaultTtl now st code r ttl? = st := by
      unfold cachePut
      rw [hnc]
      simp
    rw [hput]
    simp only [cacheGet, hfresh]

/-- Witness for C4: putting a concrete non-cacheable failure result into
an empty cache and reading the same code back yields no result. -/
theorem cacheable_iff_and_put_noop_witness :
    (cacheGet id 1 (cachePut id ("lru") 500 1800 0 [] ("x") failureResultExample none)
        ("x")).1 = none :=
  cacheable_iff_and_put_noop.2 id ("lru") 500 1800 0 1 [] ("x") failureResultExample none
    (by decide) rfl

/-- C6: with the lru policy, a put into a cache at or above capacity
(whose keys are distinct and do not yet contain the new code's hash)
removes exactly one entry, one whose last_accessed is minimal over the
cache, appends the new entry, preserves the total entry count, and never
removes an entry whose last_accessed is strictly later than the
minimum. -/
theorem lru_eviction (hash : String → String) (st : CacheDict) (code : String)
    (r : EnhancedResult) (maxEntries : ℕ) (defaultTtl now : ℚ) (ttl? : Option ℚ)
    (hnd : (st.map Prod.fst).Nodup) (hne : st ≠ [])
    (hfull : maxEntries ≤ st.length) (hc : r.isCacheable = true)
    (hfresh : dictFind? st (hash code) = none) :
    ∃ kmin emin, (kmin, emin) ∈ st ∧
      (∀ p ∈ st, emin.lastAccessed ≤ p.2.lastAccessed) ∧
      cachePut hash ("lru") maxEntries defaultTtl now st code r ttl? =
        dictDel st kmin ++
          [(hash code,
            { codeHash := hash code, result := r, timestamp := now,
              ttlSeconds := effectiveTtl defaultTtl ttl?, hitCount := 0,
              lastAccessed := now })] ∧
      (cachePut hash ("lru") maxEntries defaultTtl now st code r ttl?).length
        = st.length ∧
      ∀ p ∈ st, emin.lastAccessed < p.2.lastAccessed →
        p ∈ cachePut hash ("lru") maxEntries defaultTtl now st code r ttl? := by
  obtain ⟨m, hmin_eq, hmin_mem, hmin_le⟩ := pyMinBy_spec (fun e => e.lastAccessed) st hne
  have hemp : st.isEmpty = false := by
    cases st
    · exact absurd rfl hne
    · rfl
  have hevict : evictOneEntry ("lru") st = dictDel st m.1 := by
    unfold evictOneEntry
    rw [hemp]
    simp [hmin_eq]
  have hfresh_all : ∀ p ∈ st, p.1 ≠ hash code := (dictFind?_eq_none_iff st _).mp hfresh
  have hput : cachePut hash ("lru") maxEntries defaultTtl now st code r ttl? =
      dictDel st m.1 ++
        [(hash code,
          { codeHash := hash code, result := r, timestamp := now,
            ttlSeconds := effectiveTtl defaultTtl ttl?, hitCount := 0,
            lastAccessed := now })] := by
    unfold cachePut
    rw [hc]
    simp only [Bool.not_true, Bool.false_eq_true, if_false, if_pos hfull, hevict]
    exact dictSet_append_of_fresh _ _ _
      (fun p hp => hfresh_all p (dictDel_subset st m.1 p hp))
  refine ⟨m.1, m.2, hmin_mem, hmin_le, hput, ?_, ?_⟩
  · rw [hput, List.length_append, List.length_singleton]
    exact length_dictDel_add_one st m.1 ⟨m.2, hmin_mem⟩
  · intro p hp hlt
    have hpne : p.1 ≠ m.1 := by
      intro heq
      have hm : (m.1, p.2) ∈ st := by
        rw [← heq]
        exact hp
      have : p.2 = m.2 := nodup_keys_unique st hnd m.1 p.2 m.2 hm hmin_mem
      rw [this] at hlt
      exact lt_irrefl _ hlt
    rw [hput]
    exact List.mem_append_left _ (mem_dictDel_of_ne st m.1 p hp hpne)

/-- A concrete cache entry with a later last-access time. -/
def cacheEntryA : CacheEntry :=
  { codeHash := ("a"), result := successResultExample, timestamp := 0,
    ttlSeconds := 100, hitCount := 0, lastAccessed := 5 }

/-- A concrete cache entry with the oldest last-access time. -/
def cacheEntryB : CacheEntry :=
  { codeHash := ("b"), result := successResultExample, timestamp := 0,
    ttlSeconds := 100, hitCount := 0, lastAccessed := 3 }

/-- A concrete two-entry cache at capacity two. -/
def exampleCache : CacheDict :=
  [(("a"), cacheEntryA), (("b"), cacheEntryB)]

/-- Witness for C6: putting a third distinct code into the two-entry
cache at capacity evicts the minimal-last-accessed entry. -/
theorem lru_eviction_witness :
    ∃ kmin emin, (kmin, emin) ∈ exampleCache ∧
      (∀ p ∈ exampleCache, emin.lastAccessed ≤ p.2.lastAccessed) ∧
      cachePut id ("lru") 2 100 7 exampleCache ("c") successResultExample none =
        dictDel exampleCache kmin ++
          [(id ("c"),
            { codeHash := id ("c"), result := successResultExample, timestamp := 7,
              ttlSeconds := effectiveTtl 100 none, hitCount := 0,
              lastAccessed := 7 })] ∧
      (cachePut id ("lru") 2 100 7 exampleCache ("c") successResultExample none).length
        = exampleCache.length ∧
      ∀ p ∈ exampleCache, emin.lastAccessed < p.2.lastAccessed →
        p ∈ cachePut id ("lru") 2 100 7 exampleCache ("c") successResultExample none :=
  lru_eviction id exampleCache ("c") successResultExample 2 100 7 none
    (by decide) (by simp [exampleCache]) (by decide) (by decide) (by decide)

/-- C7: a put of a cacheable result followed by a get of the same code
within the entry's TTL returns exactly the stored result; the slot is
keyed by the hash of the code alone. -/
theorem cache_roundtrip (hash : String → String) (policy : String) (maxEntries : ℕ)
    (defaultTtl now getNow : ℚ) (st : CacheDict) (code : String) (r : EnhancedResult)
    (ttl? : Option ℚ) (hc : r.isCacheable = true)
    (httl : getNow ≤ now + effectiveTtl defaultTtl ttl?) :
    (cacheGet hash getNow
        (cachePut hash policy maxEntries defaultTtl now st code r ttl?) code).1
      = some r := by
  have hnexp : ¬ (getNow > now + effectiveTtl defaultTtl ttl?) := not_lt.mpr httl
  unfold cachePut
  rw [hc]
  simp only [Bool.not_true, Bool.false_eq_true, if_false]
  simp only [cacheGet, dictFind?_dictSet_self]
  simp [CacheEntry.isExpired, hnexp]

/-- Witness for C7: a concrete put/get round trip on an empty cache
returns the stored result. -/
theorem cache_roundtrip_witness :
    (cacheGet id 50 (cachePut id ("lru") 500 100 0 [] ("x") successResultExample none)
        ("x")).1 = some successResultExample :=
  cache_roundtrip id ("lru") 500 100 0 50 [] ("x") successResultExample none
    (by decide) (by norm_num [effectiveTtl])

/-! ### Profiler lemmas -/

lemma pySorted_replicate (n : ℕ) (t : ℚ) :
    pySorted (List.replicate n t) = List.replicate n t := by
  have hperm := List.perm_insertionSort (· ≤ ·) (List.replicate n t)
  unfold pySorted
  rw [List.eq_replicate_iff]
  constructor
  · rw [hperm.length_eq, List.length_replicate]
  · intro b hb
    exact List.eq_of_mem_replicate (hperm.mem_iff.mp hb)

lemma getD_replicate_of_lt (n i : ℕ) (t : ℚ) (hi : i < n) :
    (List.replicate n t).getD i 0 = t := by
  rw [List.getD_eq_getElem?_getD, List.getElem?_replicate, if_pos hi]
  rfl

lemma pyMedian_replicate (n : ℕ) (t : ℚ) (hn : 1 ≤ n) :
    pyMedian (List.replicate n t) = t := by
  unfold pyMedian
  rw [pySorted_replicate]
  simp only [List.length_replicate]
  have hdiv : n / 2 < n := Nat.div_lt_self hn (by norm_num)
  by_cases hodd : n % 2 = 1
  · rw [if_pos hodd, getD_replicate_of_lt n _ t hdiv]
  · rw [if_neg hodd, getD_replicate_of_lt n _ t hdiv,
      getD_replicate_of_lt n _ t (lt_of_le_of_lt (Nat.sub_le _ _) hdiv)]
    ring

/-- C8: the profiler's predict falls back to 1000 ms with confidence
exactly 0.1 on a missing or invalid (fewer than 3 samples) profile; a
profile built from at least 3 identical timings t predicts t at the 50th
percentile; and on any valid profile with positive average, the
prediction confidence is the equal-weight mean of min(1, count/100) and
1/(1 + stdDev/avg). -/
theorem profiler_prediction (percentile : ℕ) :
    ((predict none percentile).predictedTimeMs = 1000 ∧
     (predict none percentile).confidence = 1/10) ∧
    (∀ pr : ExecutionProfile, pr.sampleCount < 3 →
        (predict (some pr) percentile).predictedTimeMs = 1000 ∧
        (predict (some pr) percentile).confidence = 1/10) ∧
    (∀ (t stdDev : ℚ) (n : ℕ), 3 ≤ n →
        (predict (buildProfile (List.replicate n t) stdDev) 50).predictedTimeMs = t) ∧
    (∀ pr : ExecutionProfile, pr.isValid = true → 0 < pr.avgMs →
        (predict (some pr) percentile).confidence =
          (min 1 ((pr.sampleCount : ℚ) / 100) + 1 / (1 + pr.stdDevMs / pr.avgMs)) / 2) := by
  refine ⟨⟨rfl, rfl⟩, ?_, ?_, ?_⟩
  · intro pr hlt
    have hv : pr.isValid = false := by
      unfold ExecutionProfile.isValid
      simp [Nat.not_le.mpr hlt]
    constructor <;> simp [predict, hv, fallbackPrediction]
  · intro t stdDev n hn
    have hb : buildProfile (List.replicate n t) stdDev = some
        { minMs := pyMinList (List.replicate n t)
          maxMs := pyMaxList (List.replicate n t)
          avgMs := pyMean (List.replicate n t)
          p50Ms := pyMedian (List.replicate n t)
          p95Ms := percentileInterp (List.replicate n t) 95
          p99Ms := percentileInterp (List.replicate n t) 99
          sampleCount := n
          stdDevMs := stdDev } := by
      unfold buildProfile
      rw [List.length_replicate, if_neg (Nat.not_lt.mpr hn)]
    have hv : ExecutionProfile.isValid
        { minMs := pyMinList (List.replicate n t)
          maxMs := pyMaxList (List.replicate n t)
          avgMs := pyMean (List.replicate n t)
          p50Ms := pyMedian (List.replicate n t)
          p95Ms := percentileInterp (List.replicate n t) 95
          p99Ms := percentileInterp (List.replicate n t) 99
          sampleCount := n
          stdDevMs := stdDev } = true := by
      unfold ExecutionProfile.isValid
      simp [hn]
    rw [hb]
    simp only [predict, hv, Bool.not_true, Bool.false_eq_true, if_false]
    simp only [predictValid]
    unfold ExecutionProfile.getEstimatedTime
    rw [if_pos rfl]
    exact pyMedian_replicate n t (le_trans (by norm_num) hn)
  · intro pr hv havg
    simp only [predict, hv, Bool.not_true, Bool.false_eq_true, if_false]
    show (min 1 ((pr.sampleCount : ℚ) / 100) +
        1 / (1 + if pr.avgMs > 0 then pr.stdDevMs / pr.avgMs else 0)) / 2 = _
    rw [if_pos havg]

/-- Witness for C8: three identical 7 ms timings predict 7 ms at the
50th percentile. -/
theorem profiler_prediction_witness :
    (predict (buildProfile (List.replicate 3 (7 : ℚ)) 0) 50).predictedTimeMs = 7 :=
  (profiler_prediction 50).2.2.1 7 0 3 (by norm_num)

/-- C9 counterexample: constructing an OptimizationRecommendation with
confidence 2 (outside [0,1]) and priority 11 (outside [1,10]) is not an
error — the dataclass has no validation and stores both values
silently. -/
theorem optimization_rec_no_validation_counterexample :
    (mkOptimizationRecommendation OptimizationStrategy.cacheAggressive ("d") ("b") 2
        ("r") 11).confidence = 2 ∧
    (mkOptimizationRecommendation OptimizationStrategy.cacheAggressive ("d") ("b") 2
        ("r") 11).priority = 11 :=
  ⟨rfl, rfl⟩

/-- C9 amended: only CodeRecommendation validates at construction —
it succeeds exactly when confidence lies in [0,1], priority in [1,5] and
the expected savings are non-negative, raising otherwise — while
OptimizationRecommendation stores any confidence and priority
unchecked. -/
theorem construction_validation (rType : RecommendationType) (descr : String)
    (s c : ℚ) (p : ℤ) (strategy : OptimizationStrategy) (d b rs : String)
    (oc : ℚ) (op : ℤ) :
    ((∃ rec, mkCodeRecommendation rType descr s c p = Except.ok rec) ↔
      (0 ≤ c ∧ c ≤ 1 ∧ 1 ≤ p ∧ p ≤ 5 ∧ 0 ≤ s)) ∧
    (mkOptimizationRecommendation strategy d b oc rs op).confidence = oc ∧
    (mkOptimizationRecommendation strategy d b oc rs op).priority = op := by
  refine ⟨?_, rfl, rfl⟩
  unfold mkCodeRecommendation
  by_cases h1 : 0 ≤ c ∧ c ≤ 1
  · rw [if_neg (not_not_intro h1)]
    by_cases h2 : 1 ≤ p ∧ p ≤ 5
    · rw [if_neg (not_not_intro h2)]
      by_cases h3 : s < 0
      · rw [if_pos h3]
        constructor
        · rintro ⟨rec, hrec⟩
          exact absurd hrec (by simp)
        · rintro ⟨_, _, _, _, hs⟩
          exact absurd h3 (not_lt.mpr hs)
      · rw [if_neg h3]
        constructor
        · intro _
          exact ⟨h1.1, h1.2, h2.1, h2.2, not_lt.mp h3⟩
        · intro _
          exact ⟨_, rfl⟩
    · rw [if_pos h2]
      constructor
      · rintro ⟨rec, hrec⟩
        exact absurd hrec (by simp)
      · rintro ⟨_, _, hp1, hp5, _⟩
        exact absurd ⟨hp1, hp5⟩ h2
  · rw [if_pos h1]
    constructor
    · rintro ⟨rec, hrec⟩
      exact absurd hrec (by simp)
    · rintro ⟨h01, h1c, _, _, _⟩
      exact absurd ⟨h01, h1c⟩ h1

/-- Witness for the amended C9: an in-range CodeRecommendation
construction succeeds. -/
theorem construction_validation_witness :
    ∃ rec, mkCodeRecommendation RecommendationType.cache ("d") 0 1 3 = Except.ok rec :=
  (construction_validation RecommendationType.cache ("d") 0 1 3
      OptimizationStrategy.cacheAggressive ("x") ("y") ("z") 0 1).1.mpr
    (by norm_num)

end AgentDiscovery
